import Mathlib

/-! Verification of the focus-enforcement orchestrator (mode-based session state
machine) of the website-blocker repository.

The embedding models:
* the mode-based service worker (`transitionMode` and the six transition
  functions, `syncStateFromNative`, `checkSchedules`, `handleStartSession`,
  `handleEndSession`) from the mode-based `background.js`;
* the flag-based storage layer (`isSessionActive`, `endFocusSessionLocal`,
  `recordSession`, `updateStatsAfterSession`) from `storage.js`.

JavaScript-specific behaviour is modelled explicitly:
* `JVal α` models a JS field that can be `undefined`, `null`, or a value; the
  distinction matters because `??` coalesces both `undefined` and `null`
  while `!==` distinguishes them.
* Fields where `undefined` and `null` behave identically throughout the
  modelled code are collapsed to `Option` (`none` = absent-or-null).
* Numeric truthiness (`0` and `null` falsy) is modelled by explicit helpers.
* `Math.round(ms / 60000)` is modelled exactly on integers.
* The ambient clock (`Date.now()`, `new Date()`) and the local date strings
  are passed in as explicit parameters.
* The native-messaging agent is a function from requests to optional
  responses (`none` = "no usable response"); each operation also returns the
  list of one-shot requests it sent, and `syncStateFromNative` returns the
  list of store keys it wrote.
-/

namespace FocusBlocker

/-- Session enforcement mode: `off`, `precision` (in-page), `strict`
(system-level via the native agent). -/
inductive Mode
  | off
  | precision
  | strict
deriving DecidableEq, Repr

/-- A JavaScript field value: `undefined`, `null`, or an actual value. -/
inductive JVal (α : Type)
  | undefined
  | null
  | val (a : α)
deriving DecidableEq, Repr

/-- JS `x ?? d`: both `undefined` and `null` fall back to the default. -/
def JVal.orD {α : Type} : JVal α → α → α
  | .val a, _ => a
  | _, d => d

/-- JS `x ?? null` stored into a nullable field. -/
def JVal.toOption {α : Type} : JVal α → Option α
  | .val a => some a
  | _ => none

/-- JS strict equality `cur !== nat` (negated) between a stored nullable
number and a raw native field: `null === null`, numbers compare by value,
`undefined` equals nothing a store field can hold. -/
def optIntEqJ : Option Int → JVal Int → Bool
  | none, .null => true
  | some a, .val b => a == b
  | _, _ => false

/-- Same raw strict-equality comparison for nullable strings. -/
def optStrEqJ : Option String → JVal String → Bool
  | none, .null => true
  | some a, .val b => a == b
  | _, _ => false

/-- JS truthiness of a nullable string: `null`/absent and `""` are falsy. -/
def jsTruthyStr : Option String → Bool
  | none => false
  | some s => s != ""

/-- JS truthiness of a nullable number: `null`/absent and `0` are falsy. -/
def jsTruthyInt : Option Int → Bool
  | none => false
  | some n => n != 0

/-- JS `Math.round(ms / 60000)` on an integer count of milliseconds
(`Math.round x = ⌊x + 1/2⌋`). -/
def jsRound60000 (ms : Int) : Int :=
  Int.fdiv (2 * ms + 60000) 120000

/-- The mode-based `focusSession` record stored in `chrome.storage.local`. -/
structure Session where
  mode : Mode
  startTime : Option Int
  endTime : Option Int
  locked : Bool
  scheduledId : Option String
deriving DecidableEq, Repr

/-- The cleared session written on `*→off`. -/
def offSession : Session :=
  { mode := .off, startTime := none, endTime := none, locked := false,
    scheduledId := none }

/-- The `settings` record (mode-based schema). -/
structure Settings where
  defaultMode : Mode
  blockAllChannels : Bool
  requireParentUnlock : Bool
  parentPinHash : Option String
  sessionDurationMinutes : Int
deriving DecidableEq, Repr

/-- The `blockRules.youtube` channel lists. -/
structure YoutubeRules where
  blockedChannels : List String
  allowedChannels : List String
deriving DecidableEq, Repr

/-- The `blockRules` record (reddit lists are carried through untouched). -/
structure BlockRules where
  youtube : YoutubeRules
  redditBlocked : List String
  redditAllowed : List String
  blockedSites : List String
deriving DecidableEq, Repr

/-- One `sessionHistory` entry. -/
structure HistoryEntry where
  startTime : Option Int
  endTime : Int
  durationMinutes : Int
  actualMinutes : Int
  completedNaturally : Bool
  scheduledId : Option String
deriving DecidableEq, Repr

/-- The aggregate `stats` record. -/
structure Stats where
  totalSessions : Int
  totalFocusMinutes : Int
  currentStreak : Int
  lastSessionDate : Option String
deriving DecidableEq, Repr

/-- The tracked slice of `chrome.storage.local` for the mode-based worker. -/
structure Store where
  focusSession : Session
  settings : Settings
  blockRules : BlockRules
  sessionHistory : List HistoryEntry
  stats : Stats
deriving DecidableEq, Repr

/-- The `MAX_HISTORY_ENTRIES` cap in `storage.js`. -/
def MAX_HISTORY_ENTRIES : Nat := 200

/-- The ring trim `while (history.length > MAX_HISTORY_ENTRIES) history.shift();` -/
def trimHistory (l : List HistoryEntry) : List HistoryEntry :=
  if l.length > MAX_HISTORY_ENTRIES then trimHistory l.tail else l
termination_by l.length
decreasing_by
  cases l with
  | nil => simp_all [MAX_HISTORY_ENTRIES]
  | cons a t => simp

/-- Model of `recordSession`: push the record and trim the ring. -/
def recordSessionHist (history : List HistoryEntry) (r : HistoryEntry) :
    List HistoryEntry :=
  trimHistory (history ++ [r])

/-- Model of `updateStatsAfterSession`, with the local date strings for today and
yesterday passed in explicitly. -/
def updateStatsPure (today yesterday : String) (stats : Stats)
    (actualMinutes : Int) : Stats :=
  let s1 := { stats with
    totalSessions := stats.totalSessions + 1,
    totalFocusMinutes := stats.totalFocusMinutes + actualMinutes }
  if s1.lastSessionDate == some today then
    s1
  else if s1.lastSessionDate == some yesterday then
    { s1 with currentStreak := s1.currentStreak + 1,
              lastSessionDate := some today }
  else
    { s1 with currentStreak := 1, lastSessionDate := some today }

/-- One-shot requests sent to the native agent by the dispatcher. -/
inductive AgentReq
  | startSession (mode : Mode) (durationMinutes : Int)
      (scheduledId : Option String) (locked : Bool)
  | switchMode (mode : Mode)
  | endSession (natural : Bool) (parentPin : Option String)
deriving DecidableEq, Repr

/-- The session object inside an agent response or a `GET_STATE` report.
`startTime`, `endTime`, `scheduledId` are three-valued because the
reconciler compares them with raw `!==`; `mode` and `locked` are collapsed
to `Option` because `undefined` and `null` behave identically for them. -/
structure NativeSession where
  mode : Option Mode
  startTime : JVal Int
  endTime : JVal Int
  locked : Option Bool
  scheduledId : JVal String
deriving DecidableEq, Repr

/-- An agent one-shot response. -/
structure AgentResp where
  status : String
  session : Option NativeSession
  message : Option String
deriving DecidableEq, Repr

/-- The agent as an environment oracle: `none` models "no usable response"
(agent absent, serialization error, timeout). -/
def Agent : Type := AgentReq → Option AgentResp

/-- Result object returned by the dispatcher to its caller. The
`return response` pass-through in `endStrictSession` is embedded by copying
the response's `status` and `message`. -/
structure TResult where
  status : String
  message : Option String
  session : Option Session
  rmode : Option Mode
deriving DecidableEq, Repr

/-- Embed a raw agent response as a dispatcher result (the
`return response` pass-through branch of `endStrictSession`). -/
def AgentResp.toResult (r : AgentResp) : TResult :=
  { status := r.status, message := r.message, session := none, rmode := none }

/-- The optional `params` object handed to `transitionMode`. -/
structure TParams where
  durationMinutes : Option Int
  scheduledId : Option String
  natural : Option Bool
  parentApproved : Option Bool
  parentPin : Option String
deriving DecidableEq, Repr

/-- A `params` object with no field set. -/
def TParams.empty : TParams :=
  { durationMinutes := none, scheduledId := none, natural := none,
    parentApproved := none, parentPin := none }

/-- The outcome of a dispatcher operation: its result object, the store
after all writes, and the one-shot agent requests sent (in order). -/
def Outcome : Type := TResult × Store × List AgentReq

/-- Transition `off → precision`: write the Session locally first, then best-effort
notify the agent; an `OK` response carrying a session overwrites the local
fields with the agent-supplied values (`??` falling back to the local
ones). Always reports `OK` with the locally built session. -/
def startPrecisionSession (agent : Agent) (now : Int) (st : Store)
    (params : TParams) : Outcome :=
  let settings := st.settings
  let duration := params.durationMinutes.getD settings.sessionDurationMinutes
  let locked := settings.requireParentUnlock && jsTruthyStr settings.parentPinHash
  let session : Session :=
    { mode := .precision, startTime := some now,
      endTime := some (now + duration * 60 * 1000),
      locked := locked, scheduledId := params.scheduledId }
  let st1 := { st with focusSession := session }
  let req := AgentReq.startSession .precision duration params.scheduledId locked
  let st2 :=
    match agent req with
    | some r =>
      if r.status = "OK" then
        match r.session with
        | some ns =>
          { st1 with focusSession :=
            { mode := ns.mode.getD .precision,
              startTime := some (ns.startTime.orD now),
              endTime := some (ns.endTime.orD (now + duration * 60 * 1000)),
              locked := ns.locked.getD locked,
              scheduledId :=
                match ns.scheduledId with
                | .val s => some s
                | _ => params.scheduledId } }
        | none => st1
      else st1
    | none => st1
  ({ status := "OK", message := none, session := some session, rmode := none },
   st2, [req])

/-- Transition `off → strict`: call the agent first; on failure fall back to
`startPrecisionSession`; on success write the (agent-supplied or locally
built) session to the store. -/
def startStrictSession (agent : Agent) (now : Int) (st : Store)
    (params : TParams) : Outcome :=
  let settings := st.settings
  let duration := params.durationMinutes.getD settings.sessionDurationMinutes
  let locked := settings.requireParentUnlock && jsTruthyStr settings.parentPinHash
  let req := AgentReq.startSession .strict duration params.scheduledId locked
  let fallback : Outcome :=
    let out := startPrecisionSession agent now st params
    (out.1, out.2.1, req :: out.2.2)
  match agent req with
  | none => fallback
  | some r =>
    if r.status = "OK" then
      let stored : Session :=
        match r.session with
        | some ns =>
          { mode := ns.mode.getD .strict,
            startTime := ns.startTime.toOption,
            endTime := ns.endTime.toOption,
            locked := ns.locked.getD false,
            scheduledId := ns.scheduledId.toOption }
        | none =>
          { mode := .strict, startTime := some now,
            endTime := some (now + duration * 60 * 1000),
            locked := locked, scheduledId := params.scheduledId }
      ({ status := "OK", message := none, session := some stored, rmode := none },
       { st with focusSession := stored }, [req])
    else fallback

/-- Transition `precision → strict`: write `mode = strict` locally first, then call
the agent; on failure revert the local write to `precision` and report an
error. -/
def switchToStrict (agent : Agent) (st : Store) : Outcome :=
  let session := st.focusSession
  let st1 := { st with focusSession := { session with mode := .strict } }
  let req := AgentReq.switchMode .strict
  let ok :=
    match agent req with
    | some r => r.status == "OK"
    | none => false
  if ok then
    ({ status := "OK", message := none, session := none, rmode := some .strict },
     st1, [req])
  else
    ({ status := "ERROR",
       message := some "Failed to switch to strict mode. Native app unavailable.",
       session := none, rmode := none },
     { st with focusSession := { session with mode := .precision } }, [req])

/-- Transition `strict → precision`: call the agent first; only on success write
`mode = precision` locally; on failure keep strict and report an error. -/
def switchToPrecision (agent : Agent) (st : Store) : Outcome :=
  let req := AgentReq.switchMode .precision
  let ok :=
    match agent req with
    | some r => r.status == "OK"
    | none => false
  if ok then
    ({ status := "OK", message := none, session := none, rmode := some .precision },
     { st with focusSession := { st.focusSession with mode := .precision } },
     [req])
  else
    ({ status := "ERROR",
       message := some "Failed to switch to precision mode. Native app unavailable.",
       session := none, rmode := none },
     st, [req])

/-- Record history and stats for the session being ended, guarded by JS
truthiness of `session.startTime` (shared by both end transitions). -/
def recordEndOfSession (now : Int) (today yesterday : String) (st : Store)
    (natural : Bool) : Store :=
  let session := st.focusSession
  if jsTruthyInt session.startTime then
    let start := session.startTime.getD 0
    let actualMinutes := jsRound60000 (now - start)
    let durationMinutes :=
      if jsTruthyInt session.endTime then
        jsRound60000 (session.endTime.getD 0 - start)
      else actualMinutes
    let entry : HistoryEntry :=
      { startTime := session.startTime, endTime := now,
        durationMinutes := durationMinutes, actualMinutes := actualMinutes,
        completedNaturally := natural, scheduledId := session.scheduledId }
    { st with
      sessionHistory := recordSessionHist st.sessionHistory entry,
      stats := updateStatsPure today yesterday st.stats actualMinutes }
  else st

/-- Transition `precision → off`: record history and stats, clear the session, then
notify the agent for bookkeeping only (response ignored). -/
def endPrecisionSession (agent : Agent) (now : Int) (today yesterday : String)
    (st : Store) (params : TParams) : Outcome :=
  let natural := params.natural.getD false
  let st1 := recordEndOfSession now today yesterday st natural
  let st2 := { st1 with focusSession := offSession }
  let req := AgentReq.endSession natural none
  let _ := agent req
  ({ status := "OK", message := none, session := none, rmode := none },
   st2, [req])

/-- Transition `strict → off`: for a non-natural end of a locked session with no PIN,
fail before doing anything; otherwise call the agent first; a failure
response carrying a message is passed through with no state change; any
other failure still ends the session locally. -/
def endStrictSession (agent : Agent) (now : Int) (today yesterday : String)
    (st : Store) (params : TParams) : Outcome :=
  let session := st.focusSession
  let natural := params.natural.getD false
  if !natural && session.locked && !(jsTruthyStr params.parentPin) then
    ({ status := "ERROR", message := some "Session is locked. PIN required.",
       session := none, rmode := none }, st, [])
  else
    let req := AgentReq.endSession natural (some (params.parentPin.getD ""))
    let passThrough : Option AgentResp :=
      match agent req with
      | some r => if r.status != "OK" && r.message.isSome then some r else none
      | none => none
    match passThrough with
    | some r => (r.toResult, st, [req])
    | none =>
      let st1 := recordEndOfSession now today yesterday st natural
      let st2 := { st1 with focusSession := offSession }
      (({ status := "OK", message := none, session := none, rmode := none } :
          TResult), st2, [req])

/-- Render a mode the way it appears in the `${from}->${to}` dispatch key. -/
def Mode.key : Mode → String
  | .off => "off"
  | .precision => "precision"
  | .strict => "strict"

/-- Model of `transitionMode`: dispatch on the `(from,to)` pair; any pair outside
the six legal transitions returns an `Invalid transition` error and does
nothing. -/
def transitionMode (agent : Agent) (now : Int) (today yesterday : String)
    (st : Store) (fromMode toMode : Mode) (params : TParams) : Outcome :=
  match fromMode, toMode with
  | .off, .precision => startPrecisionSession agent now st params
  | .off, .strict => startStrictSession agent now st params
  | .precision, .strict => switchToStrict agent st
  | .strict, .precision => switchToPrecision agent st
  | .precision, .off => endPrecisionSession agent now today yesterday st params
  | .strict, .off => endStrictSession agent now today yesterday st params
  | f, t =>
    ({ status := "ERROR",
       message := some ("Invalid transition: " ++ f.key ++ "->" ++ t.key),
       session := none, rmode := none }, st, [])

/-- The six legal `(from,to)` pairs of the dispatch table. -/
def legalTransition : Mode → Mode → Bool
  | .off, .precision => true
  | .off, .strict => true
  | .precision, .strict => true
  | .strict, .precision => true
  | .precision, .off => true
  | .strict, .off => true
  | _, _ => false

/-- The `youtubeRules` object of a `GET_STATE` report. `none` models an
absent or null list (both make the `JSON.stringify` comparison fail and the
write fall back to `[]`). -/
structure NativeYtRules where
  blockedChannels : Option (List String)
  allowedChannels : Option (List String)
deriving DecidableEq, Repr

/-- The `settings` object of a `GET_STATE` report; `none` models an absent
field (skipped by the `!== undefined` guard). -/
structure NativeSettings where
  defaultMode : Option Mode
  blockAllChannels : Option Bool
  sessionDurationMinutes : Option Int
deriving DecidableEq, Repr

/-- A full agent-reported state (the payload of an `OK` `GET_STATE`
response). -/
structure NativeState where
  session : Option NativeSession
  youtubeRules : Option NativeYtRules
  blockedDomains : Option (List String)
  settings : Option NativeSettings
deriving DecidableEq, Repr

/-- Top-level storage keys that `syncStateFromNative` can write. -/
inductive StoreKey
  | focusSession
  | blockRules
  | settings
deriving DecidableEq, Repr

/-- The session value `syncStateFromNative` writes for an agent-reported
session: every field is defaulted with `??`. -/
def normalizeNativeSession (ns : NativeSession) : Session :=
  { mode := ns.mode.getD .off,
    startTime := ns.startTime.toOption,
    endTime := ns.endTime.toOption,
    locked := ns.locked.getD false,
    scheduledId := ns.scheduledId.toOption }

/-- The raw field-by-field `!==` comparison of the stored session against
the agent-reported one (true when no field differs). -/
def sessionMatchesNative (cur : Session) (ns : NativeSession) : Bool :=
  cur.mode == ns.mode.getD .off &&
  optIntEqJ cur.startTime ns.startTime &&
  optIntEqJ cur.endTime ns.endTime &&
  ns.locked == some cur.locked &&
  optStrEqJ cur.scheduledId ns.scheduledId

/-- The session block of `syncStateFromNative`: `updates.focusSession`
(set only when some raw-compared field differs). -/
def sessionUpdate (cur : Session) (os : Option NativeSession) :
    Option Session :=
  match os with
  | none => none
  | some ns =>
    if sessionMatchesNative cur ns then none
    else some (normalizeNativeSession ns)

/-- The YouTube-rules block of `syncStateFromNative`: `updates.blockRules`
after the channel-list comparison (`JSON.stringify` equality). -/
def ytUpdate (cur : BlockRules) (oy : Option NativeYtRules) :
    Option BlockRules :=
  match oy with
  | none => none
  | some ns =>
    if ns.blockedChannels == some cur.youtube.blockedChannels &&
       ns.allowedChannels == some cur.youtube.allowedChannels
    then none
    else some { cur with youtube :=
      { blockedChannels := ns.blockedChannels.getD [],
        allowedChannels := ns.allowedChannels.getD [] } }

/-- The blocked-domains block of `syncStateFromNative`: starts from
`updates.blockRules ?? <store value>` and overwrites `blockedSites` when it
differs. -/
def domainsUpdate (prev : Option BlockRules) (cur : BlockRules)
    (od : Option (List String)) : Option BlockRules :=
  match od with
  | none => prev
  | some doms =>
    let base := prev.getD cur
    if doms == base.blockedSites then prev
    else some { base with blockedSites := doms }

/-- The settings block of `syncStateFromNative`: each field is guarded by
`!== undefined`, compared raw, and assigned in sequence; `updates.settings`
is set only when some field changed. -/
def settingsUpdate (cur : Settings) (ost : Option NativeSettings) :
    Option Settings :=
  match ost with
  | none => none
  | some ns =>
    let p1 :=
      match ns.defaultMode with
      | some m =>
        if cur.defaultMode != m then ({ cur with defaultMode := m }, true)
        else (cur, false)
      | none => (cur, false)
    let p2 :=
      match ns.blockAllChannels with
      | some b =>
        if p1.1.blockAllChannels != b then
          ({ p1.1 with blockAllChannels := b }, true)
        else (p1.1, false)
      | none => (p1.1, false)
    let p3 :=
      match ns.sessionDurationMinutes with
      | some d =>
        if p2.1.sessionDurationMinutes != d then
          ({ p2.1 with sessionDurationMinutes := d }, true)
        else (p2.1, false)
      | none => (p2.1, false)
    if p1.2 || p2.2 || p3.2 then some p3.1 else none

/-- Model of `syncStateFromNative`: compare each tracked field against the store and
build an `updates` object holding only the keys that changed; returns the
updated store and the list of keys written (empty means the single
`chrome.storage.local.set(updates)` call was skipped). -/
def syncStateFromNative (st : Store) (state : NativeState) :
    Store × List StoreKey :=
  let sessUp := sessionUpdate st.focusSession state.session
  let rulesUp := domainsUpdate (ytUpdate st.blockRules state.youtubeRules)
    st.blockRules state.blockedDomains
  let settingsUp := settingsUpdate st.settings state.settings
  let st1 :=
    { st with
      focusSession := sessUp.getD st.focusSession,
      blockRules := rulesUp.getD st.blockRules,
      settings := settingsUp.getD st.settings }
  let keys :=
    (if sessUp.isSome then [StoreKey.focusSession] else []) ++
    (if rulesUp.isSome then [StoreKey.blockRules] else []) ++
    (if settingsUp.isSome then [StoreKey.settings] else [])
  (st1, keys)

/-- The `msg` object of a popup `startSession` request. -/
structure StartMsg where
  durationMinutes : Option Int
  scheduledId : Option String
deriving DecidableEq, Repr

/-- The `msg` object of a popup `endSession` request. -/
structure EndMsg where
  natural : Option Bool
  parentApproved : Option Bool
  parentPin : Option String
deriving DecidableEq, Repr

/-- Model of `handleStartSession`: dispatch `off → defaultMode` with the message's
duration (defaulted from settings) and schedule id. -/
def handleStartSession (agent : Agent) (now : Int) (today yesterday : String)
    (st : Store) (msg : StartMsg) : Outcome :=
  let settings := st.settings
  transitionMode agent now today yesterday st .off settings.defaultMode
    { durationMinutes :=
        some (msg.durationMinutes.getD settings.sessionDurationMinutes),
      scheduledId := msg.scheduledId,
      natural := none, parentApproved := none, parentPin := none }

/-- Model of `handleEndSession`: a no-op `OK` when the stored mode is already off,
otherwise dispatch `currentMode → off`. -/
def handleEndSession (agent : Agent) (now : Int) (today yesterday : String)
    (st : Store) (msg : EndMsg) : Outcome :=
  let currentMode := st.focusSession.mode
  if currentMode = .off then
    ({ status := "OK", message := none, session := none, rmode := none },
     st, [])
  else
    transitionMode agent now today yesterday st currentMode .off
      { durationMinutes := none, scheduledId := none,
        natural := some (msg.natural.getD false),
        parentApproved := some (msg.parentApproved.getD false),
        parentPin := some (msg.parentPin.getD "") }

/-- A stored schedule entry. `days` and the time fields are JS values so
malformed entries can be represented: a non-list `days` makes
`schedule.days.includes(day)` throw; an absent hour/minute makes the
minute arithmetic evaluate to `NaN` (modelled as `none`). -/
structure ScheduleJ where
  id : String
  label : String
  days : JVal (List Int)
  startHour : JVal Int
  startMinute : JVal Int
  endHour : JVal Int
  endMinute : JVal Int
  enabled : Bool
deriving DecidableEq, Repr

/-- Computes `hour * 60 + minute` as a JS number: `null` coerces to 0 and
`undefined` poisons the result to `NaN` (`none`). -/
def jsMinutes (hour minute : JVal Int) : Option Int :=
  match hour, minute with
  | .undefined, _ => none
  | _, .undefined => none
  | h, m => some ((h.orD 0) * 60 + (m.orD 0))

/-- The parameters of the session start a matching schedule triggers. -/
structure Trigger where
  durationMinutes : Int
  scheduledId : String
deriving DecidableEq, Repr

/-- One iteration of the `checkSchedules` loop body for one schedule:
`.error ()` models the `TypeError` thrown by `schedule.days.includes` when
`days` is not a list; `.ok none` means the schedule is skipped; `.ok
(some t)` means it triggers. Comparisons against `NaN` are false, so a
schedule with `NaN` minute bounds is skipped. -/
def scheduleStep (day cur : Int) (s : ScheduleJ) :
    Except Unit (Option Trigger) :=
  if !s.enabled then .ok none
  else
    match s.days with
    | .val ds =>
      if !ds.contains day then .ok none
      else
        match jsMinutes s.startHour s.startMinute,
              jsMinutes s.endHour s.endMinute with
        | some startM, some endM =>
          if startM ≤ cur && cur < endM then
            .ok (some { durationMinutes := endM - cur, scheduledId := s.id })
          else .ok none
        | _, _ => .ok none
    | _ => .error ()

/-- The `checkSchedules` scan: first match wins, a thrown `TypeError`
aborts the remaining scan. -/
def checkSchedulesLoop (day cur : Int) :
    List ScheduleJ → Except Unit (Option Trigger)
  | [] => .ok none
  | s :: rest =>
    match scheduleStep day cur s with
    | .error e => .error e
    | .ok (some t) => .ok (some t)
    | .ok none => checkSchedulesLoop day cur rest

/-- Model of `checkSchedules` end to end: skip entirely when a session is active,
otherwise scan in list order and start `off → defaultMode` with the first
match's remaining minutes and schedule id. -/
def checkSchedulesRun (agent : Agent) (now : Int) (today yesterday : String)
    (active : Bool) (schedules : List ScheduleJ) (day cur : Int)
    (st : Store) : Except Unit (Option Outcome) :=
  if active then .ok none
  else
    match checkSchedulesLoop day cur schedules with
    | .error e => .error e
    | .ok none => .ok none
    | .ok (some t) =>
      .ok (some (handleStartSession agent now today yesterday st
        { durationMinutes := some t.durationMinutes,
          scheduledId := some t.scheduledId }))

/-- The flag-based `focusSession` record of `storage.js`. -/
structure FSession where
  active : Bool
  startTime : Option Int
  endTime : Option Int
  locked : Bool
  scheduledId : Option String
deriving DecidableEq, Repr

/-- The cleared flag-based session. -/
def offFSession : FSession :=
  { active := false, startTime := none, endTime := none, locked := false,
    scheduledId := none }

/-- The slice of storage touched by `isSessionActive` and
`endFocusSessionLocal` in `storage.js`. -/
structure StoreV1 where
  focusSession : FSession
  sessionHistory : List HistoryEntry
  stats : Stats
deriving DecidableEq, Repr

/-- Model of `endFocusSessionLocal`: a no-op `true` when no session is active;
`false` with no writes when a non-natural end hits a lock without parent
approval; otherwise record history and stats and clear the session. JS
arithmetic coerces a `null` start/end time to `0`. -/
def endFocusSessionLocal (now : Int) (today yesterday : String)
    (st : StoreV1) (parentApproved natural : Bool) : Bool × StoreV1 :=
  let session := st.focusSession
  if !session.active then (true, st)
  else if !natural && session.locked && !parentApproved then (false, st)
  else
    let actualMinutes := jsRound60000 (now - session.startTime.getD 0)
    let durationMinutes :=
      jsRound60000 (session.endTime.getD 0 - session.startTime.getD 0)
    let entry : HistoryEntry :=
      { startTime := session.startTime, endTime := now,
        durationMinutes := durationMinutes, actualMinutes := actualMinutes,
        completedNaturally := natural, scheduledId := session.scheduledId }
    (true,
     { focusSession := offFSession,
       sessionHistory := recordSessionHist st.sessionHistory entry,
       stats := updateStatsPure today yesterday st.stats actualMinutes })

/-- Model of `isSessionActive`: false for an inactive session; for an active session
whose truthy `endTime` has passed, end it as a natural expiry through the
local fallback path (`endFocusSession({natural: true})` resolving to
`endFocusSessionLocal` with `parentApproved = false`) and return false;
true otherwise. -/
def isSessionActive (now : Int) (today yesterday : String) (st : StoreV1) :
    Bool × StoreV1 :=
  let session := st.focusSession
  if !session.active then (false, st)
  else if jsTruthyInt session.endTime && session.endTime.getD 0 ≤ now then
    (false, (endFocusSessionLocal now today yesterday st false true).2)
  else (true, st)

/-! Concrete fixtures used by witnesses and counterexamples. -/

/-- Mode-based default settings. -/
def defaultSettings : Settings :=
  { defaultMode := .precision, blockAllChannels := false,
    requireParentUnlock := false, parentPinHash := none,
    sessionDurationMinutes := 30 }

/-- Default (empty) block rules. -/
def defaultRules : BlockRules :=
  { youtube := { blockedChannels := [], allowedChannels := [] },
    redditBlocked := [], redditAllowed := [], blockedSites := [] }

/-- Default aggregate stats. -/
def defaultStats : Stats :=
  { totalSessions := 0, totalFocusMinutes := 0, currentStreak := 0,
    lastSessionDate := none }

/-- A freshly seeded store with no active session. -/
def baseStore : Store :=
  { focusSession := offSession, settings := defaultSettings,
    blockRules := defaultRules, sessionHistory := [], stats := defaultStats }

/-- An unreachable agent: every one-shot call yields no usable response. -/
def agentNone : Agent := fun _ => none

/-- A store holding an active strict session. -/
def strictStore : Store :=
  { baseStore with focusSession :=
      { mode := .strict, startTime := some 1000, endTime := some 2000000,
        locked := false, scheduledId := none } }

/-- An agent whose every one-shot call fails (no response, or a response
whose status is not `OK`). -/
def agentAllFail (agent : Agent) : Prop :=
  ∀ req r, agent req = some r → r.status ≠ "OK"

/-! Claim C1 -/

/-- C1 counterexample: with the stored session in mode `strict`, the
dispatch `transitionMode("off", "precision")` does not fail with
`InvalidTransition`: it reports `OK` and overwrites the session with a
fresh precision one, because `transitionMode` never compares `from`
against the stored mode. -/
theorem C1_mismatched_from_is_not_rejected :
    strictStore.focusSession.mode = Mode.strict ∧
    (transitionMode agentNone 5000 "d" "y" strictStore .off .precision
        TParams.empty).1.status = "OK" ∧
    (transitionMode agentNone 5000 "d" "y" strictStore .off .precision
        TParams.empty).2.1.focusSession.mode = Mode.precision := by
  decide

/-- C1 amended: `transitionMode` validates only the `(from,to)` pair: any
pair outside the six legal transitions fails with an `Invalid transition`
error, writes nothing, and sends no agent request; it performs no check of
`from` against the Session's stored mode. -/
theorem C1_invalid_pair_rejected_noop (agent : Agent) (now : Int)
    (today yesterday : String) (st : Store) (fromMode toMode : Mode)
    (params : TParams) (h : legalTransition fromMode toMode = false) :
    transitionMode agent now today yesterday st fromMode toMode params =
      ({ status := "ERROR",
         message := some ("Invalid transition: " ++ fromMode.key ++ "->" ++
           toMode.key),
         session := none, rmode := none }, st, []) := by
  cases fromMode <;> cases toMode <;>
    simp_all [legalTransition, transitionMode, Mode.key]

/-- C1 witness: the rejected pair `off→off` at a concrete store. -/
theorem C1_invalid_pair_rejected_noop_witness :
    legalTransition .off .off = false ∧
    transitionMode agentNone 0 "d" "y" baseStore .off .off TParams.empty =
      ({ status := "ERROR", message := some "Invalid transition: off->off",
         session := none, rmode := none }, baseStore, []) :=
  ⟨by decide,
   C1_invalid_pair_rejected_noop agentNone 0 "d" "y" baseStore .off .off
     TParams.empty (by decide)⟩

/-! Claim C2 -/

/-- C2: on `off→strict` with a failing agent, the transition falls back to
`off→precision`: the final stored mode is `precision` and the call reports
success. -/
theorem C2_strict_start_falls_back_to_precision (agent : Agent) (now : Int)
    (today yesterday : String) (st : Store) (params : TParams)
    (hfail : agentAllFail agent) :
    (transitionMode agent now today yesterday st .off .strict params).1.status
      = "OK" ∧
    (transitionMode agent now today yesterday st .off .strict
        params).2.1.focusSession.mode = Mode.precision := by
  have hprec :
      (startPrecisionSession agent now st params).1.status = "OK" ∧
      (startPrecisionSession agent now st params).2.1.focusSession.mode
        = Mode.precision := by
    unfold startPrecisionSession
    cases hr : agent (AgentReq.startSession .precision
        (params.durationMinutes.getD st.settings.sessionDurationMinutes)
        params.scheduledId
        (st.settings.requireParentUnlock &&
          jsTruthyStr st.settings.parentPinHash)) with
    | none => simp [hr]
    | some r =>
      have := hfail _ r hr
      simp [hr, this]
  have htm : transitionMode agent now today yesterday st .off .strict params
      = startStrictSession agent now st params := rfl
  rw [htm]
  unfold startStrictSession
  cases hr : agent (AgentReq.startSession .strict
      (params.durationMinutes.getD st.settings.sessionDurationMinutes)
      params.scheduledId
      (st.settings.requireParentUnlock &&
        jsTruthyStr st.settings.parentPinHash)) with
  | none => simpa [hr] using hprec
  | some r =>
    have := hfail _ r hr
    simpa [hr, this] using hprec

/-- C2 witness: the unreachable agent at a concrete store. -/
theorem C2_strict_start_falls_back_to_precision_witness :
    (transitionMode agentNone 0 "d" "y" baseStore .off .strict
        TParams.empty).1.status = "OK" ∧
    (transitionMode agentNone 0 "d" "y" baseStore .off .strict
        TParams.empty).2.1.focusSession.mode = Mode.precision :=
  C2_strict_start_falls_back_to_precision agentNone 0 "d" "y" baseStore
    TParams.empty (by intro req r h; simp [agentNone] at h)

/-! Claim C3 -/

/-- C3: on `precision→strict` with a failing agent, the locally written
`strict` mode is reverted: the final session is the original one with mode
`precision`, and the call returns an error result. -/
theorem C3_failed_upgrade_reverts_to_precision (agent : Agent) (now : Int)
    (today yesterday : String) (st : Store) (params : TParams)
    (hfail : ∀ r, agent (AgentReq.switchMode .strict) = some r →
      r.status ≠ "OK") :
    (transitionMode agent now today yesterday st .precision .strict
        params).1.status = "ERROR" ∧
    (transitionMode agent now today yesterday st .precision .strict
        params).2.1.focusSession =
      { st.focusSession with mode := .precision } := by
  have htm : transitionMode agent now today yesterday st .precision .strict
      params = switchToStrict agent st := rfl
  rw [htm]
  unfold switchToStrict
  cases hr : agent (AgentReq.switchMode .strict) with
  | none => simp [hr]
  | some r =>
    have := hfail r hr
    simp [hr, this]

/-- C3 witness: the unreachable agent at a store holding a precision
session. -/
theorem C3_failed_upgrade_reverts_to_precision_witness :
    (transitionMode agentNone 0 "d" "y"
        { baseStore with focusSession :=
            { mode := .precision, startTime := some 0, endTime := some 60000,
              locked := false, scheduledId := none } }
        .precision .strict TParams.empty).1.status = "ERROR" ∧
    (transitionMode agentNone 0 "d" "y"
        { baseStore with focusSession :=
            { mode := .precision, startTime := some 0, endTime := some 60000,
              locked := false, scheduledId := none } }
        .precision .strict TParams.empty).2.1.focusSession =
      { mode := .precision, startTime := some 0, endTime := some 60000,
        locked := false, scheduledId := none } :=
  C3_failed_upgrade_reverts_to_precision agentNone 0 "d" "y" _ TParams.empty
    (by intro r h; simp [agentNone] at h)

/-! Claim C4 -/

/-- C4: on `strict→off` with `locked = true`, a non-natural end, and no
credential supplied, the call fails with the `PIN required` error before
any write or agent request, leaving the whole store unchanged. -/
theorem C4_locked_end_requires_credential (agent : Agent) (now : Int)
    (today yesterday : String) (st : Store) (params : TParams)
    (hl : st.focusSession.locked = true)
    (hn : params.natural.getD false = false)
    (hp : jsTruthyStr params.parentPin = false) :
    transitionMode agent now today yesterday st .strict .off params =
      ({ status := "ERROR", message := some "Session is locked. PIN required.",
         session := none, rmode := none }, st, []) := by
  have htm : transitionMode agent now today yesterday st .strict .off params
      = endStrictSession agent now today yesterday st params := rfl
  rw [htm]
  unfold endStrictSession
  simp [hl, hn, hp]

/-- C4 witness: a locked strict session, no PIN, manual end. -/
theorem C4_locked_end_requires_credential_witness :
    ({ baseStore with focusSession :=
        { mode := .strict, startTime := some 0, endTime := some 60000,
          locked := true, scheduledId := none } } :
        Store).focusSession.locked = true ∧
    transitionMode agentNone 0 "d" "y"
        { baseStore with focusSession :=
            { mode := .strict, startTime := some 0, endTime := some 60000,
              locked := true, scheduledId := none } }
        .strict .off TParams.empty =
      ({ status := "ERROR", message := some "Session is locked. PIN required.",
         session := none, rmode := none },
       { baseStore with focusSession :=
           { mode := .strict, startTime := some 0, endTime := some 60000,
             locked := true, scheduledId := none } }, []) :=
  ⟨rfl,
   C4_locked_end_requires_credential agentNone 0 "d" "y" _ TParams.empty
     rfl rfl rfl⟩

/-! Claim C9 -/

/-- C9: requesting `endSession` while the stored mode is `off` returns a
bare `OK` result, sends no agent request, invokes no transition, and
leaves the store untouched. -/
theorem C9_end_session_when_off_is_silent_noop (agent : Agent) (now : Int)
    (today yesterday : String) (st : Store) (msg : EndMsg)
    (h : st.focusSession.mode = .off) :
    handleEndSession agent now today yesterday st msg =
      ({ status := "OK", message := none, session := none, rmode := none },
       st, []) := by
  unfold handleEndSession
  simp [h]

/-- C9 witness: ending at the freshly seeded (off) store. -/
theorem C9_end_session_when_off_is_silent_noop_witness :
    baseStore.focusSession.mode = Mode.off ∧
    handleEndSession agentNone 0 "d" "y" baseStore
        { natural := none, parentApproved := none, parentPin := none } =
      ({ status := "OK", message := none, session := none, rmode := none },
       baseStore, []) :=
  ⟨rfl,
   C9_end_session_when_off_is_silent_noop agentNone 0 "d" "y" baseStore
     { natural := none, parentApproved := none, parentPin := none } rfl⟩

/-! Claim C10 -/

/-- Lemma: `updateStatsAfterSession` always increments the session counter. -/
theorem updateStatsPure_totalSessions (today yesterday : String)
    (stats : Stats) (a : Int) :
    (updateStatsPure today yesterday stats a).totalSessions =
      stats.totalSessions + 1 := by
  cases hd : stats.lastSessionDate == some today <;>
    cases hy : stats.lastSessionDate == some yesterday <;>
      simp [updateStatsPure, hd, hy]

/-- C10: `isSessionActive` is state-mutating: for an active session whose
truthy `endTime` has passed, the query ends the session as a natural
expiry — bypassing the lock (no hypothesis on `locked`), clearing the
session, appending a `completedNaturally` history entry and bumping the
stats — and returns `false`; and it returns `true` only when the session
is active and its `endTime` has not passed. -/
theorem C10_is_session_active_expires_naturally (now : Int)
    (today yesterday : String) (st : StoreV1) :
    (∀ e : Int, st.focusSession.active = true →
       st.focusSession.endTime = some e → e ≠ 0 → e ≤ now →
       (isSessionActive now today yesterday st).1 = false ∧
       (isSessionActive now today yesterday st).2.focusSession = offFSession ∧
       (∃ entry : HistoryEntry, entry.completedNaturally = true ∧
          entry.endTime = now ∧
          (isSessionActive now today yesterday st).2.sessionHistory =
            recordSessionHist st.sessionHistory entry) ∧
       (isSessionActive now today yesterday st).2.stats.totalSessions =
         st.stats.totalSessions + 1) ∧
    ((isSessionActive now today yesterday st).1 = true →
       st.focusSession.active = true ∧
       ∀ e : Int, st.focusSession.endTime = some e → e ≠ 0 → now < e) := by
  constructor
  · intro e ha he h0 hle
    have hcond : isSessionActive now today yesterday st =
        (false, (endFocusSessionLocal now today yesterday st false true).2) := by
      unfold isSessionActive
      simp [ha, he, jsTruthyInt, bne_iff_ne, h0, hle]
    have hend : endFocusSessionLocal now today yesterday st false true =
        (true,
         { focusSession := offFSession,
           sessionHistory := recordSessionHist st.sessionHistory
             { startTime := st.focusSession.startTime, endTime := now,
               durationMinutes := jsRound60000
                 (st.focusSession.endTime.getD 0 -
                   st.focusSession.startTime.getD 0),
               actualMinutes := jsRound60000
                 (now - st.focusSession.startTime.getD 0),
               completedNaturally := true,
               scheduledId := st.focusSession.scheduledId },
           stats := updateStatsPure today yesterday st.stats
             (jsRound60000 (now - st.focusSession.startTime.getD 0)) }) := by
      unfold endFocusSessionLocal
      simp [ha]
    refine ⟨by rw [hcond], by rw [hcond, hend], ⟨_, rfl, rfl,
      by rw [hcond, hend]⟩, ?_⟩
    rw [hcond, hend]
    exact updateStatsPure_totalSessions today yesterday st.stats _
  · intro htrue
    by_cases ha : st.focusSession.active
    · refine ⟨ha, ?_⟩
      intro e he h0
      by_contra hlt
      push_neg at hlt
      unfold isSessionActive at htrue
      simp [ha, he, jsTruthyInt, bne_iff_ne, h0, hlt] at htrue
    · unfold isSessionActive at htrue
      simp [ha] at htrue

/-- C10 witness: a locked active session whose end time has passed, and an
active session still inside its window. -/
theorem C10_is_session_active_expires_naturally_witness :
    ((isSessionActive 100000 "d" "y"
        { focusSession :=
            { active := true, startTime := some 0, endTime := some 60000,
              locked := true, scheduledId := none },
          sessionHistory := [], stats := defaultStats }).1 = false ∧
      (isSessionActive 100000 "d" "y"
        { focusSession :=
            { active := true, startTime := some 0, endTime := some 60000,
              locked := true, scheduledId := none },
          sessionHistory := [], stats := defaultStats }).2.focusSession =
        offFSession ∧
      (∃ entry : HistoryEntry, entry.completedNaturally = true ∧
         entry.endTime = 100000 ∧
         (isSessionActive 100000 "d" "y"
           { focusSession :=
               { active := true, startTime := some 0, endTime := some 60000,
                 locked := true, scheduledId := none },
             sessionHistory := [], stats := defaultStats }).2.sessionHistory =
           recordSessionHist [] entry) ∧
      (isSessionActive 100000 "d" "y"
        { focusSession :=
            { active := true, startTime := some 0, endTime := some 60000,
              locked := true, scheduledId := none },
          sessionHistory := [], stats := defaultStats }).2.stats.totalSessions =
        defaultStats.totalSessions + 1) :=
  ((C10_is_session_active_expires_naturally 100000 "d" "y"
      { focusSession :=
          { active := true, startTime := some 0, endTime := some 60000,
            locked := true, scheduledId := none },
        sessionHistory := [], stats := defaultStats }).1
    60000 rfl rfl (by decide) (by decide))

/-! Claim C6 -/

/-- Schedules that are skipped (disabled, wrong day, or window not
containing the current time) leave the scan result unchanged. -/
theorem checkSchedulesLoop_append_skip (day cur : Int)
    (pre rest : List ScheduleJ)
    (hpre : ∀ s ∈ pre, scheduleStep day cur s = .ok none) :
    checkSchedulesLoop day cur (pre ++ rest) =
      checkSchedulesLoop day cur rest := by
  induction pre with
  | nil => rfl
  | cons a t ih =>
    have ha := hpre a (by simp)
    have ht := ih (fun s hs => hpre s (by simp [hs]))
    simp [checkSchedulesLoop, ha, ht]

/-- C6: with no active session, the first enabled schedule in list order
whose day set contains the current weekday and whose `[start,end)` window
contains the current time is the one triggered; the scan result does not
depend on the schedules after it; the trigger carries the remaining
minutes to the window's end and the schedule's id, and (with default mode
`precision`) the started session has exactly that duration and id. -/
theorem C6_first_matching_schedule_wins (agent : Agent) (now : Int)
    (today yesterday : String) (pre : List ScheduleJ) (s : ScheduleJ)
    (ds : List Int) (startM endM day cur : Int) (st : Store)
    (hpre : ∀ s' ∈ pre, scheduleStep day cur s' = .ok none)
    (hen : s.enabled = true) (hdays : s.days = .val ds)
    (hday : ds.contains day = true)
    (hsm : jsMinutes s.startHour s.startMinute = some startM)
    (hem : jsMinutes s.endHour s.endMinute = some endM)
    (hlo : startM ≤ cur) (hhi : cur < endM)
    (hdm : st.settings.defaultMode = .precision) :
    (∀ post : List ScheduleJ,
      checkSchedulesRun agent now today yesterday false (pre ++ s :: post)
          day cur st =
        .ok (some (handleStartSession agent now today yesterday st
          { durationMinutes := some (endM - cur),
            scheduledId := some s.id }))) ∧
    (handleStartSession agent now today yesterday st
        { durationMinutes := some (endM - cur),
          scheduledId := some s.id }).1.status = "OK" ∧
    (∃ sess : Session,
      (handleStartSession agent now today yesterday st
          { durationMinutes := some (endM - cur),
            scheduledId := some s.id }).1.session = some sess ∧
      sess.startTime = some now ∧
      sess.endTime = some (now + (endM - cur) * 60 * 1000) ∧
      sess.scheduledId = some s.id) := by
  have hmem : day ∈ ds := by simpa using hday
  have hstep : scheduleStep day cur s =
      .ok (some { durationMinutes := endM - cur, scheduledId := s.id }) := by
    unfold scheduleStep
    simp [hen, hdays, hmem, hsm, hem, hlo, hhi]
  have hhandle : handleStartSession agent now today yesterday st
      { durationMinutes := some (endM - cur), scheduledId := some s.id } =
      startPrecisionSession agent now st
        { durationMinutes := some (endM - cur), scheduledId := some s.id,
          natural := none, parentApproved := none, parentPin := none } := by
    simp only [handleStartSession]
    rw [hdm]
    rfl
  refine ⟨?_, ?_, ?_⟩
  · intro post
    unfold checkSchedulesRun
    rw [checkSchedulesLoop_append_skip day cur pre (s :: post) hpre]
    simp [checkSchedulesLoop, hstep]
  · rw [hhandle]
    rfl
  · rw [hhandle]
    exact ⟨_, rfl, rfl, rfl, rfl⟩

/-- C6 witness: two enabled overlapping schedules; only the first triggers,
with the remaining minutes of its own window. -/
theorem C6_first_matching_schedule_wins_witness :
    checkSchedulesRun agentNone 0 "d" "y" false
        [{ id := "a", label := "", days := .val [1], startHour := .val 9,
           startMinute := .val 0, endHour := .val 10, endMinute := .val 0,
           enabled := true },
         { id := "b", label := "", days := .val [1], startHour := .val 9,
           startMinute := .val 0, endHour := .val 11, endMinute := .val 0,
           enabled := true }] 1 570 baseStore =
      .ok (some (handleStartSession agentNone 0 "d" "y" baseStore
        { durationMinutes := some 30, scheduledId := some "a" })) ∧
    (handleStartSession agentNone 0 "d" "y" baseStore
        { durationMinutes := some 30, scheduledId := some "a" }).1.status
      = "OK" :=
  have h := C6_first_matching_schedule_wins agentNone 0 "d" "y" []
    { id := "a", label := "", days := .val [1], startHour := .val 9,
      startMinute := .val 0, endHour := .val 10, endMinute := .val 0,
      enabled := true } [1] 540 600 1 570 baseStore
    (by intro s' hs'; simp at hs') rfl rfl (by decide) rfl rfl
    (by decide) (by decide) rfl
  ⟨h.1 [{ id := "b", label := "", days := .val [1], startHour := .val 9,
          startMinute := .val 0, endHour := .val 11, endMinute := .val 0,
          enabled := true }], h.2.1⟩

/-! Claim C8 -/

/-- A schedule with a malformed day set (so its time and day fields cannot
be evaluated without throwing). -/
def badDaysSchedule : ScheduleJ :=
  { id := "bad", label := "broken", days := .undefined, startHour := .val 0,
    startMinute := .val 0, endHour := .val 23, endMinute := .val 59,
    enabled := true }

/-- An enabled schedule matching weekday 1 at minute 570. -/
def goodSchedule : ScheduleJ :=
  { id := "good", label := "", days := .val [1], startHour := .val 9,
    startMinute := .val 0, endHour := .val 10, endMinute := .val 0,
    enabled := true }

/-- C8 counterexample: a schedule whose day set cannot be evaluated is
fatal to the scan, not skipped: alone, `goodSchedule` triggers, but with
the malformed entry before it, the scan throws and `goodSchedule` is never
evaluated that cycle. -/
theorem C8_malformed_days_abort_scan :
    checkSchedulesLoop 1 570 [goodSchedule] =
      .ok (some { durationMinutes := 30, scheduledId := "good" }) ∧
    checkSchedulesLoop 1 570 [badDaysSchedule, goodSchedule] =
      .error () :=
  ⟨rfl, rfl⟩

/-- C8 amended: a schedule whose time fields are malformed (evaluating to
`NaN`, so the window test is false) is skipped and the scan continues over
the remaining schedules; but a schedule whose day set is not a list throws
and aborts the scan for the remaining schedules that cycle. -/
theorem C8_malformed_times_skipped_malformed_days_fatal (day cur : Int)
    (s : ScheduleJ) (rest : List ScheduleJ) (ds : List Int)
    (hds : s.days = .val ds)
    (hnan : jsMinutes s.startHour s.startMinute = none ∨
      jsMinutes s.endHour s.endMinute = none) :
    checkSchedulesLoop day cur (s :: rest) =
      checkSchedulesLoop day cur rest ∧
    ∀ s' : ScheduleJ, ∀ rest' : List ScheduleJ, s'.enabled = true →
      (s'.days = JVal.undefined ∨ s'.days = JVal.null) →
      checkSchedulesLoop day cur (s' :: rest') = .error () := by
  constructor
  · have hstep : scheduleStep day cur s = .ok none := by
      unfold scheduleStep
      cases he : s.enabled with
      | false => simp [he]
      | true =>
        cases hc : ds.contains day with
        | false =>
          simp [he, hds, hc]
          intro h
          exact absurd h (by simpa using hc)
        | true =>
          rcases hnan with h | h
          · cases h2 : jsMinutes s.endHour s.endMinute <;>
              simp [he, hds, hc, h, h2]
          · cases h2 : jsMinutes s.startHour s.startMinute <;>
              simp [he, hds, hc, h, h2]
    simp [checkSchedulesLoop, hstep]
  · intro s' rest' he hd
    have hstep : scheduleStep day cur s' = .error () := by
      unfold scheduleStep
      rcases hd with h | h <;> simp [he, h]
    simp [checkSchedulesLoop, hstep]

/-- C8 amended witness: a schedule with `NaN` time bounds is skipped and the
following good schedule still triggers; an enabled schedule with an
undefined day set aborts. -/
theorem C8_malformed_times_skipped_witness :
    (checkSchedulesLoop 1 570
        [{ id := "nan", label := "", days := .val [1], startHour := .undefined,
           startMinute := .val 0, endHour := .val 10, endMinute := .val 0,
           enabled := true }, goodSchedule] =
      checkSchedulesLoop 1 570 [goodSchedule]) ∧
    checkSchedulesLoop 1 570 [badDaysSchedule] = .error () :=
  have h := C8_malformed_times_skipped_malformed_days_fatal 1 570
    { id := "nan", label := "", days := .val [1], startHour := .undefined,
      startMinute := .val 0, endHour := .val 10, endMinute := .val 0,
      enabled := true } [goodSchedule] [1] rfl (Or.inl rfl)
  ⟨h.1, h.2 badDaysSchedule [] rfl (Or.inl rfl)⟩

/-! Claim C5 -/

/-- The Session invariant: `mode == off` iff both times are null. -/
def sessionInvariant (s : Session) : Prop :=
  s.mode = .off ↔ (s.startTime = none ∧ s.endTime = none)

instance (s : Session) : Decidable (sessionInvariant s) := by
  unfold sessionInvariant
  infer_instance

/-- An agent whose `OK` responses carry only well-formed sessions: a
non-`off` mode (or none) and numeric start and end times. -/
def agentSane (agent : Agent) : Prop :=
  ∀ req r, agent req = some r → r.status = "OK" →
    ∀ ns, r.session = some ns →
      ns.mode ≠ some .off ∧ (∃ n, ns.startTime = .val n) ∧
      (∃ n, ns.endTime = .val n)

/-- A `GET_STATE` report claiming a precision session with null times. -/
def nullTimesNativeState : NativeState :=
  { session := some
      { mode := some .precision, startTime := .null, endTime := .null,
        locked := some false, scheduledId := .null },
    youtubeRules := none, blockedDomains := none, settings := none }

/-- C5 counterexample: the reconciler writes an agent-reported session
verbatim, so a report with `mode = precision` and null times breaks the
invariant even though it held before the write. -/
theorem C5_reconciler_can_break_invariant :
    sessionInvariant baseStore.focusSession ∧
    ¬ sessionInvariant
      (syncStateFromNative baseStore nullTimesNativeState).1.focusSession := by
  decide

/-- The session stored by `startPrecisionSession` satisfies the invariant
for a sane agent (its times are always the non-null local ones). -/
theorem startPrecisionSession_invariant (agent : Agent) (now : Int)
    (st : Store) (params : TParams) (hag : agentSane agent) :
    sessionInvariant
      (startPrecisionSession agent now st params).2.1.focusSession := by
  unfold startPrecisionSession
  cases hr : agent (AgentReq.startSession .precision
      (params.durationMinutes.getD st.settings.sessionDurationMinutes)
      params.scheduledId
      (st.settings.requireParentUnlock &&
        jsTruthyStr st.settings.parentPinHash)) with
  | none => simp [hr, sessionInvariant]
  | some r =>
    by_cases hst : r.status = "OK"
    · cases hs : r.session with
      | none => simp [hr, hst, hs, sessionInvariant]
      | some ns =>
        obtain ⟨hm, -, -⟩ := hag _ r hr hst ns hs
        cases hmode : ns.mode with
        | none => simp [hr, hst, hs, hmode, sessionInvariant]
        | some m =>
          have : m ≠ .off := by
            intro hcontra
            exact hm (by rw [hmode, hcontra])
          simp [hr, hst, hs, hmode, sessionInvariant, this]
    · simp [hr, hst, sessionInvariant]

/-- The session stored by `startStrictSession` satisfies the invariant for
a sane agent. -/
theorem startStrictSession_invariant (agent : Agent) (now : Int)
    (st : Store) (params : TParams) (hag : agentSane agent) :
    sessionInvariant
      (startStrictSession agent now st params).2.1.focusSession := by
  unfold startStrictSession
  cases hr : agent (AgentReq.startSession .strict
      (params.durationMinutes.getD st.settings.sessionDurationMinutes)
      params.scheduledId
      (st.settings.requireParentUnlock &&
        jsTruthyStr st.settings.parentPinHash)) with
  | none =>
    simpa [hr] using startPrecisionSession_invariant agent now st params hag
  | some r =>
    by_cases hst : r.status = "OK"
    · cases hs : r.session with
      | none => simp [hr, hst, hs, sessionInvariant]
      | some ns =>
        obtain ⟨hm, ⟨n1, hn1⟩, ⟨n2, hn2⟩⟩ := hag _ r hr hst ns hs
        cases hmode : ns.mode with
        | none =>
          simp [hr, hst, hs, hmode, hn1, hn2, sessionInvariant, JVal.toOption]
        | some m =>
          have : m ≠ .off := by
            intro hcontra
            exact hm (by rw [hmode, hcontra])
          simp [hr, hst, hs, hmode, hn1, hn2, sessionInvariant,
            JVal.toOption, this]
    · simpa [hr, hst] using
        startPrecisionSession_invariant agent now st params hag

/-- C5 amended: the invariant is preserved by all six dispatcher
transitions — given that it holds before, that the two mid-session
switches start from a non-off session, and that the agent's `OK`
responses report well-formed sessions — and by every reconciler write
whose agent-reported session, after the code's `??` defaulting, itself
satisfies the invariant; it is not preserved for arbitrary agent-reported
values (see the counterexample). -/
theorem C5_invariant_preservation (agent : Agent) (now : Int)
    (today yesterday : String) (st : Store) (params : TParams)
    (hag : agentSane agent) (hpre : sessionInvariant st.focusSession) :
    sessionInvariant (transitionMode agent now today yesterday st
      .off .precision params).2.1.focusSession ∧
    sessionInvariant (transitionMode agent now today yesterday st
      .off .strict params).2.1.focusSession ∧
    (st.focusSession.mode ≠ .off →
      sessionInvariant (transitionMode agent now today yesterday st
        .precision .strict params).2.1.focusSession) ∧
    (st.focusSession.mode ≠ .off →
      sessionInvariant (transitionMode agent now today yesterday st
        .strict .precision params).2.1.focusSession) ∧
    sessionInvariant (transitionMode agent now today yesterday st
      .precision .off params).2.1.focusSession ∧
    sessionInvariant (transitionMode agent now today yesterday st
      .strict .off params).2.1.focusSession ∧
    (∀ state : NativeState,
      (∀ ns, state.session = some ns →
        sessionInvariant (normalizeNativeSession ns)) →
      sessionInvariant (syncStateFromNative st state).1.focusSession) := by
  have hnotoff : st.focusSession.mode ≠ .off →
      ¬(st.focusSession.startTime = none ∧ st.focusSession.endTime = none) :=
    fun hmode hboth => hmode (hpre.mpr hboth)
  refine ⟨startPrecisionSession_invariant agent now st params hag,
    startStrictSession_invariant agent now st params hag, ?_, ?_, ?_, ?_, ?_⟩
  · intro hmode
    have h := hnotoff hmode
    show sessionInvariant (switchToStrict agent st).2.1.focusSession
    unfold switchToStrict
    cases hr : agent (AgentReq.switchMode .strict) with
    | none => simpa [hr, sessionInvariant] using h
    | some r =>
      by_cases hst : r.status = "OK" <;>
        simpa [hr, hst, sessionInvariant] using h
  · intro hmode
    have h := hnotoff hmode
    show sessionInvariant (switchToPrecision agent st).2.1.focusSession
    unfold switchToPrecision
    cases hr : agent (AgentReq.switchMode .precision) with
    | none => simpa [hr, sessionInvariant] using hpre
    | some r =>
      by_cases hst : r.status = "OK"
      · simpa [hr, hst, sessionInvariant] using h
      · simpa [hr, hst, sessionInvariant] using hpre
  · show sessionInvariant
      (endPrecisionSession agent now today yesterday st params).2.1.focusSession
    unfold endPrecisionSession
    simp [offSession, sessionInvariant]
  · show sessionInvariant
      (endStrictSession agent now today yesterday st params).2.1.focusSession
    unfold endStrictSession
    by_cases hlock : (!params.natural.getD false && st.focusSession.locked &&
        !jsTruthyStr params.parentPin) = true
    · simpa [hlock] using hpre
    · cases hr : agent (AgentReq.endSession (params.natural.getD false)
          (some (params.parentPin.getD ""))) with
      | none => simp [hlock, hr, offSession, sessionInvariant]
      | some r =>
        by_cases hpass : (r.status != "OK" && r.message.isSome) = true
        · simpa [hlock, hr, hpass] using hpre
        · simp [hlock, hr, hpass, offSession, sessionInvariant]
  · intro state hws
    unfold syncStateFromNative
    cases hsess : state.session with
    | none => simpa [sessionUpdate, hsess] using hpre
    | some ns =>
      by_cases hmatch : sessionMatchesNative st.focusSession ns = true
      · simpa [sessionUpdate, hsess, hmatch] using hpre
      · simpa [sessionUpdate, hsess, hmatch] using hws ns hsess

/-- C5 amended witness: the unreachable agent at the seeded store, with a
report carrying no session. -/
theorem C5_invariant_preservation_witness :
    sessionInvariant (transitionMode agentNone 0 "d" "y" baseStore
      .off .precision TParams.empty).2.1.focusSession ∧
    sessionInvariant (syncStateFromNative baseStore
      { session := none, youtubeRules := none, blockedDomains := none,
        settings := none }).1.focusSession :=
  have h := C5_invariant_preservation agentNone 0 "d" "y" baseStore
    TParams.empty (by intro req r hr; simp [agentNone] at hr) (by decide)
  ⟨h.1, h.2.2.2.2.2.2
    { session := none, youtubeRules := none, blockedDomains := none,
      settings := none }
    (fun ns hns => by cases hns)⟩

/-! Claim C7 -/

/-- An agent-reported session all of whose raw-compared fields are
explicitly present (not `undefined`, and `locked` not null): exactly the
shape for which the raw `!==` comparison can ever see the normalized
stored value as equal. -/
def wfNativeSession (ns : NativeSession) : Prop :=
  ns.startTime ≠ .undefined ∧ ns.endTime ≠ .undefined ∧ ns.locked.isSome ∧
  ns.scheduledId ≠ .undefined

/-- A `GET_STATE` report whose present objects carry all their fields. -/
def wfReport (state : NativeState) : Prop :=
  (∀ ns, state.session = some ns → wfNativeSession ns) ∧
  (∀ yr, state.youtubeRules = some yr →
    yr.blockedChannels.isSome ∧ yr.allowedChannels.isSome)

/-- A report whose session object omits its time fields (they are
`undefined`): the raw comparison then never matches the stored `null`. -/
def undefinedTimesNativeState : NativeState :=
  { session := some
      { mode := some .precision, startTime := .undefined, endTime := .undefined,
        locked := some false, scheduledId := .null },
    youtubeRules := none, blockedDomains := none, settings := none }

/-- C7 counterexample: syncing the same agent-reported state twice is not
write-free on the second run: a session object with absent (`undefined`)
time fields compares unequal to the stored `null` forever, so
`focusSession` is rewritten on every run. -/
theorem C7_sync_not_idempotent_for_absent_fields :
    (syncStateFromNative
      (syncStateFromNative baseStore undefinedTimesNativeState).1
      undefinedTimesNativeState).2 = [StoreKey.focusSession] ∧
    (syncStateFromNative
      (syncStateFromNative baseStore undefinedTimesNativeState).1
      undefinedTimesNativeState).2 ≠ [] := by
  decide

/-- The normalized write of a well-formed agent session raw-compares equal
to that same agent session. -/
theorem sessionMatchesNative_normalize (ns : NativeSession)
    (h1 : ns.startTime ≠ .undefined) (h2 : ns.endTime ≠ .undefined)
    (h3 : ns.locked.isSome) (h4 : ns.scheduledId ≠ .undefined) :
    sessionMatchesNative (normalizeNativeSession ns) ns = true := by
  obtain ⟨b, hb⟩ := Option.isSome_iff_exists.mp h3
  unfold sessionMatchesNative normalizeNativeSession
  cases hst : ns.startTime <;> cases het : ns.endTime <;>
    cases hsc : ns.scheduledId <;>
      simp_all [optIntEqJ, optStrEqJ, JVal.toOption]

/-- Running the session comparison again on the value just written yields
no further update, for well-formed agent sessions. -/
theorem sessionUpdate_idem (cur : Session) (os : Option NativeSession)
    (hwf : ∀ ns, os = some ns → wfNativeSession ns) :
    sessionUpdate ((sessionUpdate cur os).getD cur) os = none := by
  cases os with
  | none => rfl
  | some ns =>
    obtain ⟨h1, h2, h3, h4⟩ := hwf ns rfl
    by_cases hm : sessionMatchesNative cur ns = true
    · simp [sessionUpdate, hm]
    · simp [sessionUpdate, hm,
        sessionMatchesNative_normalize ns h1 h2 h3 h4]

/-- The domains block only ever changes `blockedSites`: the youtube lists
of the effective rules object are those of its input. -/
theorem domainsUpdate_youtube (prev : Option BlockRules) (cur : BlockRules)
    (od : Option (List String)) :
    ((domainsUpdate prev cur od).getD cur).youtube =
      (prev.getD cur).youtube := by
  cases od with
  | none => rfl
  | some doms =>
    cases prev with
    | none =>
      by_cases h : doms == cur.blockedSites <;> simp [domainsUpdate, h]
    | some r =>
      by_cases h : doms == r.blockedSites <;> simp [domainsUpdate, h]

/-- After the domains block runs on a present domain list, the stored
`blockedSites` equals that list. -/
theorem domainsUpdate_blockedSites (prev : Option BlockRules)
    (cur : BlockRules) (doms : List String) :
    ((domainsUpdate prev cur (some doms)).getD cur).blockedSites = doms := by
  cases prev with
  | none =>
    by_cases h : doms == cur.blockedSites
    · simp only [domainsUpdate]
      simp at h
      simp [h]
    · simp [domainsUpdate, h]
  | some r =>
    by_cases h : doms == r.blockedSites
    · simp only [domainsUpdate]
      simp at h
      simp [h]
    · simp [domainsUpdate, h]

/-- After the youtube block runs on a present rules object, the stored
channel lists equal the reported ones. -/
theorem ytUpdate_youtube (cur : BlockRules) (yr : NativeYtRules)
    (l1 l2 : List String) (hb : yr.blockedChannels = some l1)
    (ha : yr.allowedChannels = some l2) :
    ((ytUpdate cur (some yr)).getD cur).youtube =
      { blockedChannels := l1, allowedChannels := l2 } := by
  by_cases h : l1 = cur.youtube.blockedChannels ∧
      l2 = cur.youtube.allowedChannels
  · obtain ⟨h1, h2⟩ := h
    have hnone : ytUpdate cur (some yr) = none := by
      simp [ytUpdate, hb, ha, h1, h2]
    rw [hnone]
    cases hyt : cur.youtube with
    | mk bcs acs => simp_all
  · have hsome : ytUpdate cur (some yr) =
        some { cur with youtube :=
          { blockedChannels := l1, allowedChannels := l2 } } := by
      simp [ytUpdate, hb, ha, h]
    rw [hsome]
    rfl

/-- Running the youtube comparison again on the rules just written yields
no further update, and likewise for the domains comparison. -/
theorem rulesUpdate_idem (cur : BlockRules) (oy : Option NativeYtRules)
    (od : Option (List String))
    (hwf : ∀ yr, oy = some yr →
      yr.blockedChannels.isSome ∧ yr.allowedChannels.isSome) :
    ytUpdate ((domainsUpdate (ytUpdate cur oy) cur od).getD cur) oy = none ∧
    domainsUpdate none
      ((domainsUpdate (ytUpdate cur oy) cur od).getD cur) od = none := by
  constructor
  · cases oy with
    | none => rfl
    | some yr =>
      obtain ⟨hbs, has⟩ := hwf yr rfl
      obtain ⟨l1, hb⟩ := Option.isSome_iff_exists.mp hbs
      obtain ⟨l2, ha⟩ := Option.isSome_iff_exists.mp has
      have hyoutube := domainsUpdate_youtube (ytUpdate cur (some yr)) cur od
      rw [ytUpdate_youtube cur yr l1 l2 hb ha] at hyoutube
      generalize hR : (domainsUpdate (ytUpdate cur (some yr)) cur od).getD cur
        = R at hyoutube ⊢
      simp [ytUpdate, hyoutube, hb, ha]
  · cases od with
    | none => rfl
    | some doms =>
      have hsites := domainsUpdate_blockedSites (ytUpdate cur oy) cur doms
      generalize hR : (domainsUpdate (ytUpdate cur oy) cur (some doms)).getD
        cur = R at hsites ⊢
      simp [domainsUpdate, hsites]

/-- The settings block, characterized: the effective settings after one
run carry each present reported field. -/
theorem settingsUpdate_getD (cur : Settings) (dm : Option Mode)
    (bac : Option Bool) (sdm : Option Int) :
    (settingsUpdate cur (some
        { defaultMode := dm, blockAllChannels := bac,
          sessionDurationMinutes := sdm })).getD cur =
      { cur with
        defaultMode := dm.getD cur.defaultMode,
        blockAllChannels := bac.getD cur.blockAllChannels,
        sessionDurationMinutes := sdm.getD cur.sessionDurationMinutes } := by
  rcases cur with ⟨cdm, cbac, crpu, cpph, csdm⟩
  cases dm <;> cases bac <;> cases sdm <;>
    simp only [settingsUpdate, Option.getD] <;>
      split_ifs <;> simp_all [bne_iff_ne]

/-- Running the settings comparison again on the value just written yields
no further update (each field is compared raw and assigned raw, so one run
converges). -/
theorem settingsUpdate_idem (cur : Settings) (ost : Option NativeSettings) :
    settingsUpdate ((settingsUpdate cur ost).getD cur) ost = none := by
  cases ost with
  | none => rfl
  | some ns =>
    rcases ns with ⟨dm, bac, sdm⟩
    rw [settingsUpdate_getD cur dm bac sdm]
    cases dm <;> cases bac <;> cases sdm <;> simp [settingsUpdate]

/-- C7 amended: the reconciliation step is idempotent in store writes for
every agent report whose present objects carry all their fields (session
fields may be null-valued but not absent, and never a null `locked`;
channel lists present): the second run performs zero writes. Reports with
absent fields inside a present object re-write every run (see the
counterexample). -/
theorem C7_sync_idempotent_for_wf_reports (st : Store) (state : NativeState)
    (h : wfReport state) :
    (syncStateFromNative (syncStateFromNative st state).1 state).2 = [] := by
  obtain ⟨hs, hy⟩ := h
  have h1 := sessionUpdate_idem st.focusSession state.session hs
  have h23 := rulesUpdate_idem st.blockRules state.youtubeRules
    state.blockedDomains hy
  have h4 := settingsUpdate_idem st.settings state.settings
  simp only [syncStateFromNative]
  simp [h1, h23.1, h23.2, h4]

/-- C7 witness: a fully populated report at the seeded store syncs to zero
writes on the second run. -/
theorem C7_sync_idempotent_for_wf_reports_witness :
    (syncStateFromNative
      (syncStateFromNative baseStore
        { session := some
            { mode := some .strict, startTime := .val 5, endTime := .val 9,
              locked := some true, scheduledId := .val "s1" },
          youtubeRules := some
            { blockedChannels := some ["a"], allowedChannels := some [] },
          blockedDomains := some ["x.com"],
          settings := some
            { defaultMode := some .strict, blockAllChannels := some true,
              sessionDurationMinutes := some 45 } }).1
      { session := some
          { mode := some .strict, startTime := .val 5, endTime := .val 9,
            locked := some true, scheduledId := .val "s1" },
        youtubeRules := some
          { blockedChannels := some ["a"], allowedChannels := some [] },
        blockedDomains := some ["x.com"],
        settings := some
          { defaultMode := some .strict, blockAllChannels := some true,
            sessionDurationMinutes := some 45 } }).2 = [] :=
  C7_sync_idempotent_for_wf_reports baseStore _
    ⟨fun ns hns => by
        cases hns
        exact ⟨by decide, by decide, by decide, by decide⟩,
      fun yr hyr => by
        cases hyr
        exact ⟨rfl, rfl⟩⟩

end FocusBlocker
